import Mathlib

/-!
Shallow embedding of `kingdom.js`, a small DOM-utility facade: element
selection, content/attribute/class mutation, creation, removal, event
dispatch and idempotent resource injection.

The host document tree is modelled as a store of numbered element nodes
(`Doc`), node references being the numbers.  Diagnostics (`console.warn`)
and dispatched events are collected in a surrounding `DState`.  Fallible
operations return `Except JsErr`, modelling JavaScript runtime exceptions
(`TypeError` on a null or non-object dereference, `ReferenceError` on a
temporal-dead-zone access).  Each library function below is translated
clause by clause from `src/kingdom.js`.
-/

namespace Kingdom

/-- A JavaScript attribute/property value as passed to `create`/`load`:
a string, a callable, or an element reference. -/
inductive AttrVal where
  | str (s : String)
  | func
  | nodeRef (r : Nat)
deriving Repr, DecidableEq

/-- The content slot of an element: set through `innerHTML` (raw markup,
interpreted by the host parser) or through `textContent` (literal text,
never interpreted). -/
inductive NodeContent where
  | markup (raw : String)
  | textC (s : String)
deriving Repr, DecidableEq

/-- One element node of the host tree.  `tag` is the upper-cased `tagName`;
`value` is the input value property; `listeners` records event types
registered via `addEventListener`; `onHelper` records the `el.on` expando
installed by the default export `$`; `children` are references into the
document store. -/
structure Node where
  tag : String
  attrs : List (String × String)
  classes : List String
  content : NodeContent
  value : String
  listeners : List String
  onHelper : Bool
  children : List Nat
deriving Repr, DecidableEq

instance : Inhabited Node :=
  ⟨{ tag := "", attrs := [], classes := [], content := .textC "",
     value := "", listeners := [], onHelper := false, children := [] }⟩

/-- The host document: a store of allocated nodes keyed by reference,
the document-level child list, and the next fresh reference. -/
structure Doc where
  store : List (Nat × Node)
  rootChildren : List Nat
  nextRef : Nat
deriving Repr, DecidableEq

/-- Full observable state: the document tree, the `console.warn` log and
the list of dispatched events (`none` = fired on the window). -/
structure DState where
  doc : Doc
  log : List String
  events : List (Option Nat × String)
deriving Repr, DecidableEq

/-- JavaScript runtime exceptions that the library can raise. -/
inductive JsErr where
  | typeError (msg : String)
  | referenceError (msg : String)
  | syntaxError (msg : String)
deriving Repr, DecidableEq

/-- Decidable equality of `Except` results, for evaluating concrete
runs. -/
instance {e a : Type} [DecidableEq e] [DecidableEq a] : DecidableEq (Except e a) := fun x y =>
  match x, y with
  | .ok v, .ok w =>
      if h : v = w then isTrue (by rw [h])
      else isFalse (by intro hh; cases hh; exact h rfl)
  | .ok _, .error _ => isFalse (by intro hh; cases hh)
  | .error _, .ok _ => isFalse (by intro hh; cases hh)
  | .error v, .error w =>
      if h : v = w then isTrue (by rw [h])
      else isFalse (by intro hh; cases hh; exact h rfl)

/-- An argument that is either a CSS selector string or an
already-resolved element reference (`typeof target === "string"` picks
the branch in the source). -/
inductive Target where
  | sel (s : String)
  | ref (r : Nat)
deriving Repr, DecidableEq

/-- Node stored under reference `r`, if allocated. -/
def Doc.find? (d : Doc) (r : Nat) : Option Node :=
  d.store.lookup r

/-- Replace every `r`-keyed entry of a store by `(r, m)`. -/
def storeSet : List (Nat × Node) → Nat → Node → List (Nat × Node)
  | [], _, _ => []
  | (k, v) :: rest, r, m =>
      if k = r then (r, m) :: storeSet rest r m else (k, v) :: storeSet rest r m

/-- Replace the node stored under `r` (all entries with that key). -/
def Doc.setNode (d : Doc) (r : Nat) (n : Node) : Doc :=
  { d with store := storeSet d.store r n }

/-- The `id` attribute of a node, if set. -/
def Node.idAttr (n : Node) : Option String :=
  n.attrs.lookup "id"

/-- Child references of the node stored under `r`. -/
def Doc.childrenOf (d : Doc) (r : Nat) : List Nat :=
  ((d.find? r).map Node.children).getD []

/-- Depth-fuelled preorder traversal of the trees hanging from `refs`.
With fuel larger than the store the traversal is exhaustive on any
acyclic document. -/
def preorderAux (d : Doc) : Nat → List Nat → List Nat
  | 0, _ => []
  | fuel + 1, refs =>
      refs.foldr (fun r acc => r :: (preorderAux d fuel (d.childrenOf r) ++ acc)) []

/-- Fuel sufficient to traverse any acyclic document completely. -/
def Doc.fuel (d : Doc) : Nat :=
  d.store.length + 1

/-- All element references attached to the document, in document order. -/
def attachedRefs (d : Doc) : List Nat :=
  preorderAux d d.fuel d.rootChildren

/-- ASCII upper-casing of one character (model of the host case mapping
for tag names). -/
def upChar (ch : Char) : Char :=
  if 97 ≤ ch.toNat ∧ ch.toNat ≤ 122 then Char.ofNat (ch.toNat - 32) else ch

/-- ASCII upper-casing of a string. -/
def strUpper (s : String) : String :=
  String.mk (s.data.map upChar)

/-- Whether `s` starts with `p` (character-level model of
`String.startsWith`). -/
def strStartsWith (s p : String) : Bool :=
  s.data.take p.data.length == p.data

/-- Whether `s` ends with `p` (character-level model of
`String.endsWith`). -/
def strEndsWith (s p : String) : Bool :=
  s.data.reverse.take p.data.length == p.data.reverse

/-- Shallow model of the host CSS engine, restricted to the three simple
selector forms: `#id` (leading char code 35), `.class` (leading char
code 46), and a tag name. -/
def matchesSel (sel : String) (n : Node) : Bool :=
  match sel.data with
  | ch :: rest =>
      if ch = Char.ofNat 35 then n.idAttr == some (String.mk rest)
      else if ch = Char.ofNat 46 then n.classes.contains (String.mk rest)
      else n.tag == strUpper sel
  | [] => n.tag == strUpper sel

/-- Host `scope.querySelector(sel)`: first descendant of `scope` (the whole
document when `scope = none`) matching `sel`, in document order. -/
def querySelector (d : Doc) (scope : Option Nat) (sel : String) : Option Nat :=
  let roots := match scope with
    | none => d.rootChildren
    | some r => d.childrenOf r
  (preorderAux d d.fuel roots).find?
    (fun r => ((d.find? r).map (matchesSel sel)).getD false)

/-- Host `document.getElementById(x)`: first attached node whose `id`
attribute is `x`. -/
def getElementById (d : Doc) (x : String) : Option Nat :=
  (attachedRefs d).find?
    (fun r => ((d.find? r).map (fun n => n.idAttr == some x)).getD false)

/-- The selector-or-reference ternary shared by `get` and `exists`:
a string is resolved by `querySelector` against the scope, anything else
is returned as is. -/
def resolveTarget (d : Doc) (scope : Option Nat) (t : Target) : Option Nat :=
  match t with
  | .sel s => querySelector d scope s
  | .ref r => some r

/-- Text shown for the target in the not-found warning. -/
def targetText : Target → String
  | .sel s => s
  | .ref r => toString r

/-- Source `get(target, parent = document)`: resolve, warn on
`console.warn` when nothing was found, and return the result (possibly
null).  `get` itself never throws. -/
def get (target : Target) (parent : Option Nat) (s : DState) :
    Option Nat × DState :=
  let el := resolveTarget s.doc parent target
  match el with
  | none =>
      (none, { s with log := s.log ++ ["Element not found: " ++ targetText target] })
  | some r => (some r, s)

/-- Source `exists(target, parent = document)`: the same
ternary as `get`, then `el !== null`.  No branch warns or throws. -/
def «exists» (target : Target) (parent : Option Nat) (s : DState) :
    Except JsErr Bool × DState :=
  let el := match target with
    | .sel str => querySelector s.doc parent str
    | .ref r => some r
  (.ok el.isSome, s)

/-- The default export `$` from the source.  Its non-string branch reads
the `const el` binding inside its own initializer
(`const el = typeof(target) === "string" ? document.querySelector(target) : el`),
a temporal-dead-zone access, so any non-string argument raises a
`ReferenceError`.  In the string branch, a null query result makes the
following `el.on` access raise a `TypeError`; otherwise the `on` helper
is installed on the element and the element returned. -/
def dollar (target : Target) (s : DState) : Except JsErr Nat × DState :=
  match target with
  | .ref _ => (.error (.referenceError "Cannot access el before initialization"), s)
  | .sel str =>
      match querySelector s.doc none str with
      | none => (.error (.typeError "Cannot read properties of null reading on"), s)
      | some r =>
          match s.doc.find? r with
          | none => (.error (.typeError "bad element reference"), s)
          | some n =>
              (.ok r, { s with doc := s.doc.setNode r { n with onHelper := true } })

/-- Host `classList.add(c)`: append `c` unless already present. -/
def classAdd (c : String) (l : List String) : List String :=
  if l.contains c then l else l ++ [c]

/-- Host `classList.remove(c)`: drop every occurrence of `c`. -/
def classRemove (c : String) (l : List String) : List String :=
  l.filter (fun x => x ≠ c)

/-- Host `classList.toggle(c)`: remove `c` when present, append it otherwise. -/
def classToggle (c : String) (l : List String) : List String :=
  if l.contains c then classRemove c l else l ++ [c]

/-- Update the node stored under `r` inside the full state. -/
def setNodeS (s : DState) (r : Nat) (n : Node) : DState :=
  { s with doc := s.doc.setNode r n }

/-- Class list of the node stored under `r` (empty when unallocated). -/
def classesAt (s : DState) (r : Nat) : List String :=
  ((s.doc.find? r).map Node.classes).getD []

/-- Source `toggle(target, className = "d-none", force)`:
resolve, then `force === true` forces `classList.add`, `force === false`
forces `classList.remove`, and an absent force flips membership with
`classList.toggle`.  A failed resolution makes the `el.classList` access
raise a `TypeError`. -/
def toggle (target : Target) (className : String) (force : Option Bool)
    (s : DState) : Except JsErr Nat × DState :=
  match get target none s with
  | (none, s1) =>
      (.error (.typeError "Cannot read properties of null reading classList"), s1)
  | (some r, s1) =>
      match s1.doc.find? r with
      | none => (.error (.typeError "bad element reference"), s1)
      | some n =>
          match force with
          | some true =>
              (.ok r, setNodeS s1 r { n with classes := classAdd className n.classes })
          | some false =>
              (.ok r, setNodeS s1 r { n with classes := classRemove className n.classes })
          | none =>
              (.ok r, setNodeS s1 r { n with classes := classToggle className n.classes })

/-- Source `show(target, force = true)`: `force === true`
removes the `d-none` marker class, anything else adds it.  The source
returns `undefined`. -/
def «show» (target : Target) (force : Bool) (s : DState) :
    Except JsErr Unit × DState :=
  match get target none s with
  | (none, s1) =>
      (.error (.typeError "Cannot read properties of null reading classList"), s1)
  | (some r, s1) =>
      match s1.doc.find? r with
      | none => (.error (.typeError "bad element reference"), s1)
      | some n =>
          if force then
            (.ok (), setNodeS s1 r { n with classes := classRemove "d-none" n.classes })
          else
            (.ok (), setNodeS s1 r { n with classes := classAdd "d-none" n.classes })

/-- Source `hide(target)`: always adds the `d-none` marker
class to the resolved node. -/
def hide (target : Target) (s : DState) : Except JsErr Unit × DState :=
  match get target none s with
  | (none, s1) =>
      (.error (.typeError "Cannot read properties of null reading classList"), s1)
  | (some r, s1) =>
      match s1.doc.find? r with
      | none => (.error (.typeError "bad element reference"), s1)
      | some n =>
          (.ok (), setNodeS s1 r { n with classes := classAdd "d-none" n.classes })

/-- The hide-then-show round trip on a node reference, as a transformer
on the state (used to express idempotence under repetition). -/
def hideShowRT (r : Nat) (s : DState) : DState :=
  («show» (.ref r) true (hide (.ref r) s).2).2

/-- One entry of an array content value passed to `update`: a bare value
or a `value`/`label` pair. -/
inductive ContentItem where
  | prim (s : String)
  | obj (value label : String)
deriving Repr, DecidableEq

/-- A content value passed to `update`: a string or an array. -/
inductive Content where
  | str (s : String)
  | arr (items : List ContentItem)
deriving Repr, DecidableEq

/-- The `<option>` template interpolated by `update` for SELECT targets. -/
def optionHtml : ContentItem → String
  | .obj v l => "<option value=\"" ++ v ++ "\">" ++ l ++ "</option>"
  | .prim s => "<option value=\"" ++ s ++ "\">" ++ s ++ "</option>"

/-- Host string coercion of one array entry (`String(item)`); a plain
object coerces to the usual object tag. -/
def ContentItem.asString : ContentItem → String
  | .prim s => s
  | .obj _ _ => "[object Object]"

/-- Host string coercion of a content value: an array joins its entries
with commas. -/
def Content.asString : Content → String
  | .str s => s
  | .arr items => String.intercalate "," (items.map ContentItem.asString)

/-- Host `Array.isArray(content)`. -/
def Content.isArr : Content → Bool
  | .str _ => false
  | .arr _ => true

/-- Entries of an array content value. -/
def Content.itemsOf : Content → List ContentItem
  | .str _ => []
  | .arr items => items

/-- Shallow model of host markup parsing for text readback: characters
between an opening angle bracket (code 60) and a closing one (code 62)
are tag syntax, everything else is text. -/
def stripMarkupAux : List Char → Bool → List Char
  | [], _ => []
  | ch :: cs, true =>
      if ch = Char.ofNat 62 then stripMarkupAux cs false else stripMarkupAux cs true
  | ch :: cs, false =>
      if ch = Char.ofNat 60 then stripMarkupAux cs true else ch :: stripMarkupAux cs false

/-- Text obtained by interpreting a raw string as markup and keeping
only its character data. -/
def stripMarkup (s : String) : String :=
  String.mk (stripMarkupAux s.data false)

/-- Host `textContent` readback of a content slot: literal text is returned
as stored, markup is interpreted and stripped to character data. -/
def textOf : NodeContent → String
  | .textC s => s
  | .markup raw => stripMarkup raw

/-- The plain text a caller reads back from a node: the `value` property
for form input kinds, the text content otherwise. -/
def readPlainText (n : Node) : String :=
  if n.tag = "INPUT" ∨ n.tag = "TEXTAREA" then n.value else textOf n.content

/-- Node stored under `r`, defaulting to the empty node. -/
def nodeAt (s : DState) (r : Nat) : Node :=
  (s.doc.find? r).getD default

/-- Plain text read back from the node stored under `r`. -/
def readPlainTextAt (s : DState) (r : Nat) : String :=
  readPlainText (nodeAt s r)

/-- Source `update(target, content, type = "html")`: resolve
(`el.tagName` on a failed resolution raises a `TypeError`); for a SELECT
target an array is coerced to a joined `<option>` list; a form input
kind receives the content as its `value`; otherwise type `html` assigns
markup and type `text` assigns literal text content. -/
def update (target : Target) (content : Content) (type : String) (s : DState) :
    Except JsErr Nat × DState :=
  match get target none s with
  | (none, s1) =>
      (.error (.typeError "Cannot read properties of null reading tagName"), s1)
  | (some r, s1) =>
      match s1.doc.find? r with
      | none => (.error (.typeError "bad element reference"), s1)
      | some n =>
          let content :=
            if n.tag == "SELECT" && content.isArr then
              Content.str (String.join (content.itemsOf.map optionHtml))
            else content
          if n.tag == "INPUT" || n.tag == "TEXTAREA" then
            (.ok r, setNodeS s1 r { n with value := content.asString })
          else if type == "html" then
            (.ok r, setNodeS s1 r { n with content := .markup content.asString })
          else if type == "text" then
            (.ok r, setNodeS s1 r { n with content := .textC content.asString })
          else (.ok r, s1)

/-- Detach `c` from the document child list and from every node's child
list (the host side of `el.remove()` and of re-inserting a node). -/
def detach (d : Doc) (c : Nat) : Doc :=
  { d with
    rootChildren := d.rootChildren.filter (fun x => x ≠ c),
    store := d.store.map
      (fun p => (p.1, { p.2 with children := p.2.children.filter (fun x => x ≠ c) })) }

/-- Source `remove(target)`: `get(target).remove()`.  When
resolution fails, the member access on null raises a `TypeError`
(after `get` has already warned); otherwise the node is detached. -/
def remove (target : Target) (s : DState) : Except JsErr Unit × DState :=
  match get target none s with
  | (none, s1) =>
      (.error (.typeError "Cannot read properties of null reading remove"), s1)
  | (some r, s1) => (.ok (), { s1 with doc := detach s1.doc r })

/-- JavaScript falsiness of the `evt` argument of `dispatch`: absent or
the empty string. -/
def isFalsyEvt : Option String → Bool
  | none => true
  | some "" => true
  | some _ => false

/-- Host string coercion of the `CustomEvent` type argument in the
shifted one-argument call of `dispatch`: a string is itself, an element
coerces to the object tag. -/
def evtNameOf : Target → String
  | .sel s => s
  | .ref _ => "[object Object]"

/-- Source `dispatch(target, evt)`: with a falsy `evt` the
arguments shift (`evt := target, target := window`) and the event fires
on the window; otherwise `target.dispatchEvent(new CustomEvent(evt))`
runs directly on the argument — a node reference receives the event, a
selector string has no `dispatchEvent` member and raises a `TypeError`.
No branch resolves the selector. -/
def dispatch (target : Target) (evt : Option String) (s : DState) :
    Except JsErr Unit × DState :=
  if isFalsyEvt evt then
    (.ok (), { s with events := s.events ++ [(none, evtNameOf target)] })
  else
    match target with
    | .ref r => (.ok (), { s with events := s.events ++ [(some r, evt.getD "")] })
    | .sel _ => (.error (.typeError "target.dispatchEvent is not a function"), s)

/-- Content passed to `append`: a markup string or an element. -/
inductive Code where
  | strC (s : String)
  | elemC (r : Nat)
deriving Repr, DecidableEq

/-- Parent slot of `c`: `some none` when `c` is a document-level child,
`some (some p)` when element `p` contains it, `none` when detached. -/
def parentSlot (d : Doc) (c : Nat) : Option (Option Nat) :=
  if d.rootChildren.contains c then some none
  else (d.store.find? (fun p => p.2.children.contains c)).map (fun p => some p.1)

/-- Insert `c` right before the first occurrence of `t`. -/
def insertBeforeRef : List Nat → Nat → Nat → List Nat
  | [], _, _ => []
  | x :: xs, t, c => if x = t then c :: x :: xs else x :: insertBeforeRef xs t c

/-- Insert `c` right after the first occurrence of `t`. -/
def insertAfterRef : List Nat → Nat → Nat → List Nat
  | [], _, _ => []
  | x :: xs, t, c => if x = t then x :: c :: xs else x :: insertAfterRef xs t c

/-- Host `t.insertAdjacentElement(position, c)`: the moved element is
first detached, then placed at one of the four structural positions
relative to `t`; an unknown position raises a `SyntaxError`, and the
sibling positions are a no-op when `t` has no parent. -/
def insertAdjacentElement (t c : Nat) (position : String) (s : DState) :
    Except JsErr Unit × DState :=
  let s1 := { s with doc := detach s.doc c }
  match s1.doc.find? t with
  | none => (.error (.typeError "bad element reference"), s)
  | some n =>
      if position == "beforeend" then
        (.ok (), setNodeS s1 t { n with children := n.children ++ [c] })
      else if position == "afterbegin" then
        (.ok (), setNodeS s1 t { n with children := c :: n.children })
      else if position == "beforebegin" then
        match parentSlot s1.doc t with
        | some none =>
            (.ok (), { s1 with doc :=
              { s1.doc with rootChildren := insertBeforeRef s1.doc.rootChildren t c } })
        | some (some p) =>
            match s1.doc.find? p with
            | some np =>
                (.ok (), setNodeS s1 p
                  { np with children := insertBeforeRef np.children t c })
            | none => (.ok (), s1)
        | none => (.ok (), s1)
      else if position == "afterend" then
        match parentSlot s1.doc t with
        | some none =>
            (.ok (), { s1 with doc :=
              { s1.doc with rootChildren := insertAfterRef s1.doc.rootChildren t c } })
        | some (some p) =>
            match s1.doc.find? p with
            | some np =>
                (.ok (), setNodeS s1 p
                  { np with children := insertAfterRef np.children t c })
            | none => (.ok (), s1)
        | none => (.ok (), s1)
      else (.error (.syntaxError "invalid insertAdjacent position"), s1)

/-- Host `t.insertAdjacentHTML(position, code)`, modelled shallowly: the
parsed fragment is a single fresh node whose content is the raw markup,
inserted like an element. -/
def insertAdjacentHTML (t : Nat) (code : String) (position : String) (s : DState) :
    Except JsErr Unit × DState :=
  let r := s.doc.nextRef
  let frag : Node :=
    { tag := "#MARKUP", attrs := [], classes := [], content := .markup code,
      value := "", listeners := [], onHelper := false, children := [] }
  let s1 := { s with doc :=
    { s.doc with store := s.doc.store ++ [(r, frag)], nextRef := r + 1 } }
  insertAdjacentElement t r position s1

/-- Source `append(target, code, position = "beforeend")`:
resolve the target (member access on null raises), then insert markup
via `insertAdjacentHTML` or an element via `insertAdjacentElement`;
returns the resolved target. -/
def append (target : Target) (code : Code) (position : String) (s : DState) :
    Except JsErr Nat × DState :=
  match get target none s with
  | (none, s1) =>
      (.error (.typeError "Cannot read properties of null reading insertAdjacentHTML"), s1)
  | (some t, s1) =>
      match code with
      | .strC str =>
          match insertAdjacentHTML t str position s1 with
          | (.ok _, s2) => (.ok t, s2)
          | (.error e, s2) => (.error e, s2)
      | .elemC c =>
          match insertAdjacentElement t c position s1 with
          | (.ok _, s2) => (.ok t, s2)
          | (.error e, s2) => (.error e, s2)

/-- Source regex `replace` with an on-anchor applied to an attribute key. -/
def stripOn (attr : String) : String :=
  if strStartsWith attr "on" then String.mk (attr.data.drop 2) else attr

/-- Source test `typeof value === "function"`. -/
def AttrVal.isFunc : AttrVal → Bool
  | .func => true
  | _ => false

/-- Host string coercion of an attribute value. -/
def AttrVal.asString : AttrVal → String
  | .str s => s
  | .func => "function"
  | .nodeRef _ => "[object Object]"

/-- JavaScript truthiness of an attribute value. -/
def AttrVal.truthy : AttrVal → Bool
  | .str s => !(s == "")
  | .func => true
  | .nodeRef _ => true

/-- Host `setAttribute`: overwrite an existing entry in place or append. -/
def setAttr (attrs : List (String × String)) (k v : String) :
    List (String × String) :=
  if attrs.any (fun p => p.1 == k) then
    attrs.map (fun p => if p.1 == k then (k, v) else p)
  else attrs ++ [(k, v)]

/-- Host `el.appendChild(c)`: moves `c` to the end of `el`'s children. -/
def appendChildOp (el c : Nat) (s : DState) : DState :=
  let s1 := { s with doc := detach s.doc c }
  match s1.doc.find? el with
  | none => s1
  | some n => setNodeS s1 el { n with children := n.children ++ [c] }

/-- One step of `create`'s attribute loop: an `on`-prefixed key or a
callable value registers a listener (prefix stripped); `text`, `html`
and `child` assign content; anything else becomes an attribute. -/
def applyAttr (r : Nat) (kv : String × AttrVal) (s : DState) :
    Except JsErr Unit × DState :=
  match s.doc.find? r with
  | none => (.ok (), s)
  | some n =>
      if strStartsWith kv.1 "on" || kv.2.isFunc then
        (.ok (), setNodeS s r { n with listeners := n.listeners ++ [stripOn kv.1] })
      else if kv.1 == "text" then
        (.ok (), setNodeS s r { n with content := .textC kv.2.asString })
      else if kv.1 == "html" then
        (.ok (), setNodeS s r { n with content := .markup kv.2.asString })
      else if kv.1 == "child" then
        match kv.2 with
        | .nodeRef c => (.ok (), appendChildOp r c s)
        | _ => (.error (.typeError "appendChild expects a node"), s)
      else
        (.ok (), setNodeS s r { n with attrs := setAttr n.attrs kv.1 kv.2.asString })

/-- Source loop `Object.keys(attributes).forEach(...)` of `create`, in key order. -/
def applyAttrs (r : Nat) : List (String × AttrVal) → DState → Except JsErr Unit × DState
  | [], s => (.ok (), s)
  | kv :: rest, s =>
      match applyAttr r kv s with
      | (.ok _, s1) => applyAttrs r rest s1
      | (.error e, s1) => (.error e, s1)

/-- Source `create(tag, attributes, parent, position)`, the attribute
map defaulting to empty: allocate a fresh element, apply the attribute map in key order,
and, when a parent is given, insert via `append` (an absent position
falls to `append`'s `beforeend` default).  Returns the new element. -/
def create (tag : String) (attributes : List (String × AttrVal))
    (parent : Option Target) (position : Option String) (s : DState) :
    Except JsErr Nat × DState :=
  let r := s.doc.nextRef
  let base : Node :=
    { tag := strUpper tag, attrs := [], classes := [], content := .textC "",
      value := "", listeners := [], onHelper := false, children := [] }
  let s1 := { s with doc :=
    { s.doc with store := s.doc.store ++ [(r, base)], nextRef := r + 1 } }
  match applyAttrs r attributes s1 with
  | (.error e, s2) => (.error e, s2)
  | (.ok _, s2) =>
      match parent with
      | none => (.ok r, s2)
      | some p =>
          match append p (.elemC r) (position.getD "beforeend") s2 with
          | (.ok _, s3) => (.ok r, s3)
          | (.error e, s3) => (.error e, s3)

/-- Object spread of `base` then `extra`: later keys overwrite in
place, new keys append in order. -/
def spreadProps (base extra : List (String × AttrVal)) :
    List (String × AttrVal) :=
  (base.map (fun p =>
    match extra.lookup p.1 with
    | some v => (p.1, v)
    | none => p)) ++
  extra.filter (fun q => !(base.any (fun p => p.1 == q.1)))

/-- Host `document.head`: the first attached HEAD element. -/
def docHead (d : Doc) : Option Nat :=
  (attachedRefs d).find?
    (fun r => ((d.find? r).map (fun n => n.tag == "HEAD")).getD false)

/-- The guard of `load`: a truthy `props.id` for which
`document.getElementById` finds a node. -/
def loadLookup (d : Doc) (props : List (String × AttrVal)) : Option Nat :=
  match props.lookup "id" with
  | some v => if v.truthy then getElementById d v.asString else none
  | none => none

/-- Source `load(src, props, parent)`, the props defaulting to empty
and the parent to `document.head`: return the existing node when a truthy `props.id` is already in
the tree; otherwise create a stylesheet link (for a `.css` suffix) or a
script element, with the fixed keys spread before `props`, under the
given parent (the document head by default). -/
def load (src : String) (props : List (String × AttrVal))
    (parent : Option Target) (s : DState) : Except JsErr Nat × DState :=
  match loadLookup s.doc props with
  | some el => (.ok el, s)
  | none =>
      let par : Option Target := match parent with
        | some p => some p
        | none => (docHead s.doc).map Target.ref
      if strEndsWith src ".css" then
        create "link"
          (spreadProps [("rel", .str "stylesheet"), ("href", .str src)] props)
          par none s
      else
        create "script" (spreadProps [("src", .str src)] props) par none s

/-- Whether `r` hangs nowhere: neither a document-level child nor in any
node's child list. -/
def isDetached (d : Doc) (r : Nat) : Bool :=
  !(d.rootChildren.contains r) &&
    d.store.all (fun p => !(p.2.children.contains r))

/-- Number of attached nodes whose `id` attribute is `x`. -/
def countById (d : Doc) (x : String) : Nat :=
  ((attachedRefs d).filter
    (fun r => ((d.find? r).map (fun n => n.idAttr == some x)).getD false)).length

/-- html root of the concrete test document. -/
def node0 : Node :=
  { tag := "HTML", attrs := [], classes := [], content := .textC "",
    value := "", listeners := [], onHelper := false, children := [1, 2] }

/-- head of the concrete test document. -/
def node1 : Node :=
  { tag := "HEAD", attrs := [], classes := [], content := .textC "",
    value := "", listeners := [], onHelper := false, children := [] }

/-- body of the concrete test document. -/
def node2 : Node :=
  { tag := "BODY", attrs := [], classes := [], content := .textC "",
    value := "", listeners := [], onHelper := false, children := [3] }

/-- the `div#test-div.d-none` element of the concrete test document. -/
def node3 : Node :=
  { tag := "DIV", attrs := [("id", "test-div")], classes := ["d-none"],
    content := .textC "", value := "", listeners := [], onHelper := false,
    children := [] }

/-- Concrete document mirroring the repository test page:
`html > (head, body > div#test-div.d-none)`. -/
def d0 : Doc :=
  { store := [(0, node0), (1, node1), (2, node2), (3, node3)],
    rootChildren := [0], nextRef := 4 }

/-- Initial state over the concrete test document. -/
def st0 : DState :=
  { doc := d0, log := [], events := [] }

/-- The state reached after a first `load` injection into the concrete
test document: node `4` sits under the head. -/
def stAfterLoad (n4 : Node) : DState :=
  { doc :=
    { store := [(0, node0), (1, { node1 with children := [4] }), (2, node2),
                (3, node3), (4, n4)],
      rootChildren := [0], nextRef := 5 },
    log := [], events := [] }

/-- The stylesheet link node injected by `load` for a `.css` source. -/
def linkNode (src x : String) : Node :=
  { tag := "LINK", attrs := [("rel", "stylesheet"), ("href", src), ("id", x)],
    classes := [], content := .textC "", value := "", listeners := [],
    onHelper := false, children := [] }

/-- The script node injected by `load` for a non-`.css` source. -/
def scriptNode (src x : String) : Node :=
  { tag := "SCRIPT", attrs := [("src", src), ("id", x)],
    classes := [], content := .textC "", value := "", listeners := [],
    onHelper := false, children := [] }

end Kingdom

namespace Kingdom

/-- Looking up `r` after rewriting every `r`-keyed entry to `m` yields
`m`, provided `r` was present. -/
theorem lookup_storeSet (r : Nat) (m : Node) :
    ∀ (l : List (Nat × Node)) (n : Node), l.lookup r = some n →
      (storeSet l r m).lookup r = some m := by
  intro l
  induction l with
  | nil => intro n h; simp [List.lookup] at h
  | cons p rest ih =>
      obtain ⟨k, v⟩ := p
      intro n h
      by_cases hk : k = r
      · subst hk
        rw [storeSet, if_pos rfl]
        simp [List.lookup]
      · have hb : (r == k) = false := beq_eq_false_iff_ne.mpr (Ne.symm hk)
        simp only [List.lookup, hb] at h
        rw [storeSet, if_neg hk]
        simp only [List.lookup, hb]
        exact ih n h

/-- Looking up `r` after overwriting `r` yields the new node, provided
`r` was allocated. -/
theorem find?_setNode {d : Doc} {r : Nat} {n : Node} (m : Node)
    (h : d.find? r = some n) : (d.setNode r m).find? r = some m :=
  lookup_storeSet r m d.store n h

/-- Rewriting the same reference twice keeps only the second write. -/
theorem storeSet_storeSet (r : Nat) (a b : Node) :
    ∀ l : List (Nat × Node), storeSet (storeSet l r a) r b = storeSet l r b := by
  intro l
  induction l with
  | nil => rfl
  | cons p rest ih =>
      obtain ⟨k, v⟩ := p
      by_cases hk : k = r
      · subst hk
        rw [storeSet, if_pos rfl, storeSet, if_pos rfl, storeSet, if_pos rfl, ih]
      · rw [storeSet, if_neg hk, storeSet, if_neg hk, storeSet, if_neg hk, ih]

/-- Overwriting the same reference twice keeps only the second write. -/
theorem setNode_setNode (d : Doc) (r : Nat) (a b : Node) :
    (d.setNode r a).setNode r b = d.setNode r b := by
  unfold Doc.setNode
  simp [storeSet_storeSet]

/-- Adding a class twice is the same as adding it once. -/
theorem classAdd_idem (c : String) (l : List String) :
    classAdd c (classAdd c l) = classAdd c l := by
  by_cases h : c ∈ l
  · simp [classAdd, h]
  · simp [classAdd, h]

/-- Removing a class twice is the same as removing it once. -/
theorem classRemove_idem (c : String) (l : List String) :
    classRemove c (classRemove c l) = classRemove c l := by
  unfold classRemove
  rw [List.filter_filter]
  simp

/-- Removing a class right after adding it is plain removal. -/
theorem classRemove_classAdd (c : String) (l : List String) :
    classRemove c (classAdd c l) = classRemove c l := by
  by_cases h : c ∈ l
  · simp [classAdd, h]
  · simp [classAdd, classRemove, h, List.filter_append]

/-- A removed class is no longer a member. -/
theorem classRemove_not_mem (c : String) (l : List String) :
    c ∉ classRemove c l := by
  simp [classRemove, List.mem_filter]

/-- Toggling twice restores membership. -/
theorem classToggle_toggle_mem (c : String) (l : List String) :
    c ∈ classToggle c (classToggle c l) ↔ c ∈ l := by
  by_cases h : c ∈ l
  · have h1 : classToggle c l = classRemove c l := by simp [classToggle, h]
    have h2 : c ∉ classRemove c l := classRemove_not_mem c l
    rw [h1]
    simp [classToggle, h2, h]
  · have h1 : classToggle c l = l ++ [c] := by simp [classToggle, h]
    have h2 : classToggle c (l ++ [c]) = classRemove c l := by
      simp [classToggle, classRemove, List.filter_append]
    rw [h1, h2]
    simp [classRemove_not_mem, h]

/-- Resolution success: `get` on a target that resolves returns the reference and leaves the
state untouched. -/
theorem get_resolved {s : DState} {t : Target} {p : Option Nat} {r : Nat}
    (h : resolveTarget s.doc p t = some r) : get t p s = (some r, s) := by
  unfold get
  rw [h]

/-- Class list read back after a node overwrite. -/
theorem classesAt_setNodeS {s : DState} {r : Nat} {n : Node}
    (hn : s.doc.find? r = some n) (m : Node) :
    classesAt (setNodeS s r m) r = m.classes := by
  simp [classesAt, setNodeS, find?_setNode m hn]

/-- Overwriting a node twice inside the state keeps the second write. -/
theorem setNodeS_setNodeS (s : DState) (r : Nat) (a b : Node) :
    setNodeS (setNodeS s r a) r b = setNodeS s r b := by
  simp [setNodeS, setNode_setNode]

/-- How one no-force `toggle` call computes, given a successful
resolution. -/
theorem toggle_eq_none {s : DState} {t : Target} {r : Nat} {n : Node}
    (c : String)
    (h1 : resolveTarget s.doc none t = some r) (hn : s.doc.find? r = some n) :
    toggle t c none s =
      (.ok r, setNodeS s r { n with classes := classToggle c n.classes }) := by
  unfold toggle
  rw [get_resolved h1]
  simp only [hn]

/-- How one explicit-force `toggle` call computes, given a successful
resolution. -/
theorem toggle_eq_some {s : DState} {t : Target} {r : Nat} {n : Node}
    (c : String) (b : Bool)
    (h1 : resolveTarget s.doc none t = some r) (hn : s.doc.find? r = some n) :
    toggle t c (some b) s =
      (.ok r, setNodeS s r
        { n with classes := if b then classAdd c n.classes else classRemove c n.classes }) := by
  unfold toggle
  rw [get_resolved h1]
  simp only [hn]
  cases b <;> rfl

/-- How one `hide` call computes, given an allocated reference. -/
theorem hide_eq {s : DState} {r : Nat} {n : Node}
    (hn : s.doc.find? r = some n) :
    hide (.ref r) s =
      (.ok (), setNodeS s r { n with classes := classAdd "d-none" n.classes }) := by
  unfold hide
  rw [get_resolved (show resolveTarget s.doc none (.ref r) = some r from rfl)]
  simp only [hn]

/-- How one default-force `show` call computes, given an allocated
reference. -/
theorem show_eq {s : DState} {r : Nat} {n : Node}
    (hn : s.doc.find? r = some n) :
    «show» (.ref r) true s =
      (.ok (), setNodeS s r { n with classes := classRemove "d-none" n.classes }) := by
  unfold «show»
  rw [get_resolved (show resolveTarget s.doc none (.ref r) = some r from rfl)]
  simp only [hn]
  rfl

/-- C5: for a target whose resolution is stable under class mutation of
the resolved node, `toggle(t, c)` twice with no force restores `c`-membership
of the class set to its original state, and `toggle(t, c, force)` twice with
the same explicit force produces exactly the state of a single call. -/
theorem toggle_round_trip_and_force_idem
    (s : DState) (t : Target) (c : String) (r : Nat) (n : Node)
    (h1 : resolveTarget s.doc none t = some r)
    (hn : s.doc.find? r = some n)
    (hstable : ∀ l : List String,
      resolveTarget (s.doc.setNode r { n with classes := l }) none t = some r) :
    toggle t c none s =
      (.ok r, setNodeS s r { n with classes := classToggle c n.classes }) ∧
    toggle t c none (setNodeS s r { n with classes := classToggle c n.classes }) =
      (.ok r, setNodeS s r { n with classes := classToggle c (classToggle c n.classes) }) ∧
    (c ∈ classesAt (setNodeS s r
        { n with classes := classToggle c (classToggle c n.classes) }) r ↔
      c ∈ n.classes) ∧
    (∀ b : Bool,
      toggle t c (some b) s =
        (.ok r, setNodeS s r
          { n with classes := if b then classAdd c n.classes else classRemove c n.classes }) ∧
      toggle t c (some b)
          (setNodeS s r
            { n with classes := if b then classAdd c n.classes else classRemove c n.classes }) =
        (.ok r, setNodeS s r
          { n with classes := if b then classAdd c n.classes else classRemove c n.classes })) := by
  have hset : ∀ m : Node, (setNodeS s r m).doc.find? r = some m :=
    fun m => find?_setNode m hn
  refine ⟨toggle_eq_none c h1 hn, ?_, ?_, ?_⟩
  · have h2 := toggle_eq_none c (hstable (classToggle c n.classes))
      (hset { n with classes := classToggle c n.classes })
    rw [h2, setNodeS_setNodeS]
  · rw [classesAt_setNodeS hn]
    exact classToggle_toggle_mem c n.classes
  · intro b
    refine ⟨toggle_eq_some c b h1 hn, ?_⟩
    have h2 := toggle_eq_some c b
      (hstable (if b then classAdd c n.classes else classRemove c n.classes))
      (hset { n with classes := if b then classAdd c n.classes else classRemove c n.classes })
    rw [h2, setNodeS_setNodeS]
    cases b
    · simp [classRemove_idem]
    · simp [classAdd_idem]

/-- Witness for C5 on the concrete test document, at the node reference
`3` (`div#test-div`) and class `foo`. -/
theorem toggle_round_trip_witness :
    toggle (.ref 3) "foo" none st0 =
      (.ok 3, setNodeS st0 3 { node3 with classes := classToggle "foo" node3.classes }) ∧
    toggle (.ref 3) "foo" none
        (setNodeS st0 3 { node3 with classes := classToggle "foo" node3.classes }) =
      (.ok 3, setNodeS st0 3
        { node3 with classes := classToggle "foo" (classToggle "foo" node3.classes) }) ∧
    ("foo" ∈ classesAt (setNodeS st0 3
        { node3 with classes := classToggle "foo" (classToggle "foo" node3.classes) }) 3 ↔
      "foo" ∈ node3.classes) ∧
    (∀ b : Bool,
      toggle (.ref 3) "foo" (some b) st0 =
        (.ok 3, setNodeS st0 3
          { node3 with classes :=
              if b then classAdd "foo" node3.classes else classRemove "foo" node3.classes }) ∧
      toggle (.ref 3) "foo" (some b)
          (setNodeS st0 3
            { node3 with classes :=
                if b then classAdd "foo" node3.classes else classRemove "foo" node3.classes }) =
        (.ok 3, setNodeS st0 3
          { node3 with classes :=
              if b then classAdd "foo" node3.classes else classRemove "foo" node3.classes })) :=
  toggle_round_trip_and_force_idem st0 (.ref 3) "foo" 3 node3 rfl rfl (fun _ => rfl)

/-- C9: hiding a node then showing it (default force) leaves the marker
class absent; the round trip repeated any number of times keeps that
exact state, and a second consecutive `show` changes nothing. -/
theorem hide_show_round_trip
    (s : DState) (r : Nat) (n : Node) (hn : s.doc.find? r = some n) :
    hide (.ref r) s =
      (.ok (), setNodeS s r { n with classes := classAdd "d-none" n.classes }) ∧
    «show» (.ref r) true (setNodeS s r { n with classes := classAdd "d-none" n.classes }) =
      (.ok (), setNodeS s r { n with classes := classRemove "d-none" n.classes }) ∧
    "d-none" ∉ classesAt (setNodeS s r
      { n with classes := classRemove "d-none" n.classes }) r ∧
    (∀ k : Nat, (hideShowRT r)^[k]
        (setNodeS s r { n with classes := classRemove "d-none" n.classes }) =
      setNodeS s r { n with classes := classRemove "d-none" n.classes }) ∧
    «show» (.ref r) true (setNodeS s r { n with classes := classRemove "d-none" n.classes }) =
      (.ok (), setNodeS s r { n with classes := classRemove "d-none" n.classes }) := by
  have hset : ∀ m : Node, (setNodeS s r m).doc.find? r = some m :=
    fun m => find?_setNode m hn
  have hshow2 :
      «show» (.ref r) true (setNodeS s r { n with classes := classRemove "d-none" n.classes }) =
        (.ok (), setNodeS s r { n with classes := classRemove "d-none" n.classes }) := by
    have h2 := show_eq (hset { n with classes := classRemove "d-none" n.classes })
    rw [h2, setNodeS_setNodeS, classRemove_idem]
  have hfix :
      hideShowRT r (setNodeS s r { n with classes := classRemove "d-none" n.classes }) =
        setNodeS s r { n with classes := classRemove "d-none" n.classes } := by
    unfold hideShowRT
    rw [hide_eq (hset { n with classes := classRemove "d-none" n.classes }),
      setNodeS_setNodeS]
    have h3 := show_eq (hset { n with classes := classAdd "d-none" (classRemove "d-none" n.classes) })
    rw [h3, setNodeS_setNodeS, classRemove_classAdd, classRemove_idem]
  refine ⟨hide_eq hn, ?_, ?_, fun k => Function.iterate_fixed hfix k, hshow2⟩
  · have h2 := show_eq (hset { n with classes := classAdd "d-none" n.classes })
    rw [h2, setNodeS_setNodeS, classRemove_classAdd]
  · rw [classesAt_setNodeS hn]
    exact classRemove_not_mem "d-none" n.classes

/-- Witness for C9 on the concrete test document, at node reference `3`;
the iterated round trip is exercised at `k = 2`. -/
theorem hide_show_round_trip_witness :
    hide (.ref 3) st0 =
      (.ok (), setNodeS st0 3 { node3 with classes := classAdd "d-none" node3.classes }) ∧
    «show» (.ref 3) true
        (setNodeS st0 3 { node3 with classes := classAdd "d-none" node3.classes }) =
      (.ok (), setNodeS st0 3 { node3 with classes := classRemove "d-none" node3.classes }) ∧
    "d-none" ∉ classesAt (setNodeS st0 3
      { node3 with classes := classRemove "d-none" node3.classes }) 3 ∧
    (hideShowRT 3)^[2]
        (setNodeS st0 3 { node3 with classes := classRemove "d-none" node3.classes }) =
      setNodeS st0 3 { node3 with classes := classRemove "d-none" node3.classes } ∧
    «show» (.ref 3) true
        (setNodeS st0 3 { node3 with classes := classRemove "d-none" node3.classes }) =
      (.ok (), setNodeS st0 3 { node3 with classes := classRemove "d-none" node3.classes }) :=
  have h := hide_show_round_trip st0 3 node3 rfl
  ⟨h.1, h.2.1, h.2.2.1, h.2.2.2.1 2, h.2.2.2.2⟩

/-- Node read back after a node overwrite. -/
theorem nodeAt_setNodeS {s : DState} {r : Nat} {n : Node}
    (hn : s.doc.find? r = some n) (m : Node) :
    nodeAt (setNodeS s r m) r = m := by
  unfold nodeAt setNodeS
  rw [find?_setNode m hn]
  rfl

/-- C3: `update(t, X, "text")` stores the string literally — reading the
resolved node's plain text back yields exactly `X`, for every string
`X`, markup-significant characters included (a form input kind receives
`X` as its `value`, any other node as its literal text content). -/
theorem update_text_no_markup
    (s : DState) (t : Target) (X : String) (r : Nat) (n : Node)
    (h1 : resolveTarget s.doc none t = some r)
    (hn : s.doc.find? r = some n) :
    (update t (.str X) "text" s).1 = .ok r ∧
    readPlainTextAt (update t (.str X) "text" s).2 r = X := by
  have ht : ("text" == "html") = false := by decide
  have ht2 : ("text" == "text") = true := by decide
  have e1 : update t (.str X) "text" s =
      (if (n.tag == "INPUT" || n.tag == "TEXTAREA") = true then
        (.ok r, setNodeS s r { n with value := X })
      else (.ok r, setNodeS s r { n with content := .textC X })) := by
    unfold update
    rw [get_resolved h1]
    simp only [hn]
    by_cases hi : (n.tag == "INPUT" || n.tag == "TEXTAREA") = true
    · simp [hi, Content.isArr, Content.asString]
    · simp [hi, Content.isArr, Content.asString, ht, ht2]
  rw [e1]
  by_cases hi : (n.tag == "INPUT" || n.tag == "TEXTAREA") = true
  · rw [if_pos hi]
    refine ⟨rfl, ?_⟩
    rw [readPlainTextAt, nodeAt_setNodeS hn]
    have hcase : n.tag = "INPUT" ∨ n.tag = "TEXTAREA" := by simpa using hi
    unfold readPlainText
    rcases hcase with h | h <;> simp [h]
  · rw [if_neg hi]
    refine ⟨rfl, ?_⟩
    rw [readPlainTextAt, nodeAt_setNodeS hn]
    have hcase : ¬(n.tag = "INPUT" ∨ n.tag = "TEXTAREA") := by simpa using hi
    unfold readPlainText
    rw [if_neg hcase]
    rfl

/-- Witness for C3: on the concrete test document, updating
`div#test-div` with text containing markup-significant characters reads
back unchanged. -/
theorem update_text_no_markup_witness :
    (update (.sel "#test-div") (.str "<b>&amp;</b>") "text" st0).1 = .ok 3 ∧
    readPlainTextAt (update (.sel "#test-div") (.str "<b>&amp;</b>") "text" st0).2 3 =
      "<b>&amp;</b>" :=
  update_text_no_markup st0 (.sel "#test-div") "<b>&amp;</b>" 3 node3 (by decide) (by decide)

/-- C6: `exists(target, scope)` returns exactly whether resolution of the
target within the scope yields a match, never throws (the result is
always `Except.ok`), and leaves the whole state — tree, warning log and
event list — unchanged. -/
theorem exists_reports_resolution (t : Target) (p : Option Nat) (s : DState) :
    «exists» t p s = (.ok (resolveTarget s.doc p t).isSome, s) := by
  cases t <;> rfl

/-- C7: the resolution primitive `get` never mutates the document tree
(nor the event list; only the warning log can grow), and on an
already-resolved node reference it is the identity, returning exactly
that reference with the state untouched. -/
theorem get_pure_and_identity_on_refs (t : Target) (p : Option Nat) (s : DState) :
    ((get t p s).2.doc = s.doc ∧ (get t p s).2.events = s.events) ∧
      (∀ r, get (.ref r) p s = (some r, s)) := by
  refine ⟨?_, fun r => rfl⟩
  cases t with
  | sel str =>
      simp only [get, resolveTarget]
      cases querySelector s.doc p str <;> simp
  | ref r => exact ⟨rfl, rfl⟩

/-- C10: on every non-string target the default export `$` evaluates its
own not-yet-initialized `el` binding, so the call raises a
`ReferenceError` and never returns the given node reference. -/
theorem dollar_ref_branch_raises (r : Nat) (s : DState) :
    dollar (.ref r) s =
      (.error (.referenceError "Cannot access el before initialization"), s) := by
  rfl

/-- C1 (amended): `remove` on a selector matching nothing emits the
resolver's warning, then raises a `TypeError` on the null dereference;
the document tree itself is left unchanged (only the log grows). -/
theorem remove_missing_warns_then_raises (s : DState) (sel : String)
    (h : querySelector s.doc none sel = none) :
    remove (.sel sel) s =
      (.error (.typeError "Cannot read properties of null reading remove"),
       { s with log := s.log ++ ["Element not found: " ++ sel] }) := by
  unfold remove get
  simp only [resolveTarget, h, targetText]

/-- Witness for the amended C1 on the concrete test document. -/
theorem remove_missing_warns_then_raises_witness :
    remove (.sel "#nope") st0 =
      (.error (.typeError "Cannot read properties of null reading remove"),
       { st0 with log := st0.log ++ ["Element not found: " ++ "#nope"] }) :=
  remove_missing_warns_then_raises st0 "#nope" (by decide)

/-- C1 counterexample: on the concrete test document the selector
`#nope` matches nothing, yet `remove` raises an exception — refuting the
claim that resolution failure is reported only via the diagnostic
path. -/
theorem remove_missing_counterexample :
    querySelector st0.doc none "#nope" = none ∧
    (remove (.sel "#nope") st0).1 =
      .error (.typeError "Cannot read properties of null reading remove") := by
  decide

/-- C2: `dispatch` never resolves a selector string — on the concrete
test document `#test-div` is resolvable, yet
`dispatch("#test-div", "ping")` calls `dispatchEvent` on the string
itself, raising a `TypeError` with no event fired and the state
untouched. -/
theorem dispatch_selector_not_resolved :
    querySelector st0.doc none "#test-div" = some 3 ∧
    dispatch (.sel "#test-div") (some "ping") st0 =
      (.error (.typeError "target.dispatchEvent is not a function"), st0) := by
  decide

/-- C8: `create` of a div carrying id `a` and text `hi` with no parent
yields element `4` whose id attribute is `a`, whose plain text reads
back `hi`, and which hangs nowhere in the tree (detached). -/
theorem create_div_id_text_detached :
    (create "div" [("id", .str "a"), ("text", .str "hi")] none none st0).1 = .ok 4 ∧
    (nodeAt (create "div" [("id", .str "a"), ("text", .str "hi")] none none st0).2 4).idAttr =
      some "a" ∧
    readPlainTextAt (create "div" [("id", .str "a"), ("text", .str "hi")] none none st0).2 4 =
      "hi" ∧
    isDetached (create "div" [("id", .str "a"), ("text", .str "hi")] none none st0).2.doc 4 =
      true := by
  decide

/-- Second `load` with the same id against the post-injection state:
returns the injected node and changes nothing, and the tree holds
exactly one node with that id. -/
theorem load_second_phase (src x : String) (n4 : Node)
    (hx : x ≠ "") (hx2 : x ≠ "test-div")
    (h4 : n4.idAttr = some x) (h4c : n4.children = []) :
    load src [("id", AttrVal.str x)] none (stAfterLoad n4) = (.ok 4, stAfterLoad n4) ∧
    countById (stAfterLoad n4).doc x = 1 := by
  have hb1 : ("test-div" == x) = false := beq_eq_false_iff_ne.mpr (Ne.symm hx2)
  have hbe : (x == "") = false := beq_eq_false_iff_ne.mpr hx
  have hat : attachedRefs (stAfterLoad n4).doc = [0, 1, 4, 2, 3] := by
    simp [attachedRefs, Doc.fuel, stAfterLoad, preorderAux, Doc.childrenOf,
      Doc.find?, List.lookup, h4c, node0, node1, node2, node3]
  have q0 : (((stAfterLoad n4).doc.find? 0).map (fun n => n.idAttr == some x)).getD false
      = false := rfl
  have q1 : (((stAfterLoad n4).doc.find? 1).map (fun n => n.idAttr == some x)).getD false
      = false := rfl
  have q2 : (((stAfterLoad n4).doc.find? 2).map (fun n => n.idAttr == some x)).getD false
      = false := rfl
  have q3 : (((stAfterLoad n4).doc.find? 3).map (fun n => n.idAttr == some x)).getD false
      = false := by
    show (some "test-div" == some x) = false
    simpa using hb1
  have q4 : (((stAfterLoad n4).doc.find? 4).map (fun n => n.idAttr == some x)).getD false
      = true := by
    show (n4.idAttr == some x) = true
    rw [h4]
    simp
  have hg2 : getElementById (stAfterLoad n4).doc x = some 4 := by
    unfold getElementById
    rw [hat]
    simp only [List.find?, q0, q1, q4]
  have hl2 : loadLookup (stAfterLoad n4).doc [("id", AttrVal.str x)] = some 4 := by
    unfold loadLookup
    show (if (AttrVal.str x).truthy then
        getElementById (stAfterLoad n4).doc (AttrVal.str x).asString else none) = some 4
    rw [show (AttrVal.str x).truthy = true by
      show (!(x == "")) = true
      rw [hbe]
      rfl]
    rw [if_pos rfl]
    exact hg2
  constructor
  · unfold load
    simp only [hl2]
  · unfold countById
    rw [hat]
    simp only [List.filter, q0, q1, q2, q3, q4]
    rfl

/-- C4: on the concrete test document, a `load` call carrying a
nonempty id `x` in its props, invoked twice, returns the identical node
both times, the second call changes nothing, and the tree afterwards
holds exactly one node with id `x` (idempotent injection). -/
theorem load_idempotent_injection (src x : String) (hx : x ≠ "") :
    (load src [("id", AttrVal.str x)] none st0).1.isOk = true ∧
    load src [("id", AttrVal.str x)] none (load src [("id", AttrVal.str x)] none st0).2 =
      ((load src [("id", AttrVal.str x)] none st0).1,
       (load src [("id", AttrVal.str x)] none st0).2) ∧
    countById (load src [("id", AttrVal.str x)] none st0).2.doc x = 1 := by
  by_cases hx2 : x = "test-div"
  · subst hx2
    have e1 : load src [("id", AttrVal.str "test-div")] none st0 = (.ok 3, st0) := by
      unfold load
      rw [show loadLookup st0.doc [("id", AttrVal.str "test-div")] = some 3 from by decide]
    refine ⟨?_, ?_, ?_⟩
    · rw [e1]
      rfl
    · rw [e1]
      exact e1
    · rw [e1]
      decide
  · have hbe : (x == "") = false := beq_eq_false_iff_ne.mpr hx
    have htr : (AttrVal.str x).truthy = true := by
      show (!(x == "")) = true
      rw [hbe]
      rfl
    have hg : getElementById st0.doc x = none := by
      unfold getElementById
      rw [show attachedRefs st0.doc = [0, 1, 2, 3] from by decide]
      have q3 : ((st0.doc.find? 3).map (fun n => n.idAttr == some x)).getD false
          = false := by
        show (some "test-div" == some x) = false
        simpa using beq_eq_false_iff_ne.mpr (Ne.symm hx2)
      simp only [List.find?,
        show ((st0.doc.find? 0).map (fun n => n.idAttr == some x)).getD false
          = false from rfl,
        show ((st0.doc.find? 1).map (fun n => n.idAttr == some x)).getD false
          = false from rfl,
        show ((st0.doc.find? 2).map (fun n => n.idAttr == some x)).getD false
          = false from rfl,
        q3]
    have hl : loadLookup st0.doc [("id", AttrVal.str x)] = none := by
      unfold loadLookup
      show (if (AttrVal.str x).truthy = true then
          getElementById st0.doc (AttrVal.str x).asString else none) = none
      rw [htr, if_pos rfl]
      exact hg
    by_cases hcss : strEndsWith src ".css" = true
    · have e1 : load src [("id", AttrVal.str x)] none st0 =
          (.ok 4, stAfterLoad (linkNode src x)) := by
        unfold load
        simp only [hl]
        rw [if_pos hcss]
        rfl
      have hsecond := load_second_phase src x (linkNode src x) hx hx2 rfl rfl
      refine ⟨?_, ?_, ?_⟩
      · rw [e1]
        rfl
      · rw [e1]
        exact hsecond.1
      · rw [e1]
        exact hsecond.2
    · have e1 : load src [("id", AttrVal.str x)] none st0 =
          (.ok 4, stAfterLoad (scriptNode src x)) := by
        unfold load
        simp only [hl]
        rw [if_neg hcss]
        rfl
      have hsecond := load_second_phase src x (scriptNode src x) hx hx2 rfl rfl
      refine ⟨?_, ?_, ?_⟩
      · rw [e1]
        rfl
      · rw [e1]
        exact hsecond.1
      · rw [e1]
        exact hsecond.2

/-- C4 counterexample: with the empty id the source guard
`props.id && ...` is falsy, so the lookup is skipped — the two calls
return different nodes and the tree ends up with two nodes carrying
that id, refuting the claim for every id string. -/
theorem load_empty_id_counterexample :
    (load "lib.js" [("id", AttrVal.str "")] none st0).1 = .ok 4 ∧
    (load "lib.js" [("id", AttrVal.str "")] none
      (load "lib.js" [("id", AttrVal.str "")] none st0).2).1 = .ok 5 ∧
    countById (load "lib.js" [("id", AttrVal.str "")] none
      (load "lib.js" [("id", AttrVal.str "")] none st0).2).2.doc "" = 2 := by
  decide

/-- Witness for C4: concrete source and id. -/
theorem load_idempotent_injection_witness :
    (load "lib.js" [("id", AttrVal.str "x")] none st0).1.isOk = true ∧
    load "lib.js" [("id", AttrVal.str "x")] none
        (load "lib.js" [("id", AttrVal.str "x")] none st0).2 =
      ((load "lib.js" [("id", AttrVal.str "x")] none st0).1,
       (load "lib.js" [("id", AttrVal.str "x")] none st0).2) ∧
    countById (load "lib.js" [("id", AttrVal.str "x")] none st0).2.doc "x" = 1 :=
  load_idempotent_injection "lib.js" "x" (by decide)

end Kingdom
